import Mathlib

/-!
Shallow embedding of the event-correlation and proxy-health core of
`goose-chrome-environment` (`src/lib/ChromeEnvironment.js`), together with
theorems settling the specification claims about it.

The class state (`_proxy`, `_proxyCurrent`, `_proxyErrors`, `_redirectUrls`,
`_navigationActions`, `_requestingActions`) is modelled as an explicit record
`EnvState`; methods become functions from state to state.  Promise waiters are
identified by numeric ids; live `setTimeout` timers and settlement outcomes are
tracked explicitly so that the timer/event races of `waitForPage` /
`waitForQuery` can be stated.  JS strict equality against the puppeteer
`Response.status` method (the `requestfailed` handler omits the call
parentheses) is modelled by a tiny JS value type.
-/

namespace ChromeEnv

/-! ## JS value model for the `requestfailed` strict-equality comparison -/

/-- Values compared by `===` in `item.code === response.status`: the indicator's
`code` field (a number, or `undefined` when absent) and a property access on the
response object. -/
inductive JsValue
  | num (n : Int)
  | undef
  | method
deriving DecidableEq, Repr

/-- JS strict equality `===` on the modelled values: a number is never strictly
equal to a function value. -/
def jsStrictEq : JsValue → JsValue → Bool
  | .num m, .num n => m == n
  | .undef, .undef => true
  | .method, .method => true
  | _, _ => false

/-! ## URL parsing (model of Node's `url.parse`) -/

/-- Result of Node's legacy `url.parse`, restricted to the fields the source
reads: `protocol` (with trailing colon), `hostname`, and `path`
(pathname plus query). -/
structure ParsedUrl where
  protocol : Option String
  hostname : Option String
  path : String
deriving DecidableEq, Repr

/-- JS `String.prototype.toLowerCase` on the modelled character data. -/
def jsToLower (s : String) : String :=
  String.mk (s.data.map Char.toLower)

/-- Split an URL's characters at the scheme separator `://`: the characters
before the first colon, provided that colon is immediately followed by `//`,
and the characters after the separator.  Inputs without such a separator (in
particular relative references) yield `none`. -/
def splitSchemeAux : List Char → Option (List Char × List Char)
  | [] => none
  | c :: rest =>
    if c = ':' then
      match rest with
      | '/' :: '/' :: tail => some ([], tail)
      | _ => none
    else
      match splitSchemeAux rest with
      | some r => some (c :: r.1, r.2)
      | none => none

/-- Model of Node's `url.parse` for `scheme://host[:port]/path?query` URLs and
for relative references (inputs containing no `://` separator).  Hostname and
protocol are lowercased; the port and any userinfo are not modelled.  An
absolute URL with an empty path parses with path `/`, as in Node. -/
def parseUrl (s : String) : ParsedUrl :=
  match splitSchemeAux s.data with
  | none => { protocol := none, hostname := none, path := s }
  | some r =>
    let hostPort := r.2.takeWhile (fun c => c ≠ '/')
    let rawPath := r.2.dropWhile (fun c => c ≠ '/')
    { protocol := some (String.mk (r.1.map Char.toLower ++ [':'])),
      hostname := some (String.mk ((hostPort.takeWhile (fun c => c ≠ ':')).map Char.toLower)),
      path := if rawPath = [] then "/" else String.mk rawPath }

/-- JS `a || b` on nullable strings: `null`/`undefined` and the empty string
are falsy. -/
def jsOrStr : Option String → Option String → Option String
  | some s, b => if s = "" then b else some s
  | none, b => b

/-- String concatenation of a nullable JS value: `null + '//'` stringifies the
`null`. -/
def jsStringOfOpt : Option String → String
  | some s => s
  | none => "null"

/-- Embedding of `getRedirectUrl` (ChromeEnvironment.js lines 22-29). -/
def getRedirectUrl (currentUrl redirectUri : String) : String :=
  let parsedCurrentUrl := parseUrl currentUrl
  let parsedRedirectUri := parseUrl redirectUri
  let hostname := jsOrStr parsedRedirectUri.hostname parsedCurrentUrl.hostname
  let protocol := jsOrStr parsedRedirectUri.protocol parsedCurrentUrl.protocol
  jsStringOfOpt protocol ++ "//" ++ jsStringOfOpt hostname ++ parsedRedirectUri.path

/-! ## Data model -/

/-- A puppeteer response as read by the handlers: `status()`, `headers()`, and
`request().url()`. -/
structure Response where
  status : Int
  headers : List (String × String)
  requestUrl : String
deriving DecidableEq, Repr

/-- Property access `response.status` on a puppeteer 1.x response object:
`status` is a method there, so reading the property yields the function value,
not the status code (the `response` handler calls it as `response.status()`;
the `requestfailed` handler reads the bare property). -/
def Response.statusProperty (_ : Response) : JsValue := JsValue.method

/-- A configured proxy health indicator.  The `url` field is only meaningful
for `redirect`-type indicators and `code` only for `responseCode`-type ones;
absent fields are `undefined` in JS, hence `Option`. -/
structure ProxyIndicator where
  type : String
  level : Option String := none
  url : Option String := none
  code : Option Int := none
deriving DecidableEq, Repr

/-- Property access `item.code` on an indicator: a number, or `undefined` when
the field is absent. -/
def ProxyIndicator.codeProperty (item : ProxyIndicator) : JsValue :=
  match item.code with
  | some n => JsValue.num n
  | none => JsValue.undef

/-- The error object built by `createProxyError`: message plus the
`proxyIndicator` / `proxyLevel` fields set on it. -/
structure ProxyError where
  message : String
  proxyIndicator : String
  proxyLevel : String
deriving DecidableEq, Repr

/-- Embedding of `createProxyError` (lines 474-494).  The `default` branch of
the switch throws (`Unsupported proxyIndicator`), modelled as `Except.error`;
the level defaults to `medium` (JS `||`, so an empty-string level also
defaults). -/
def createProxyError (proxyIndicator : ProxyIndicator) : Except String ProxyError :=
  if proxyIndicator.type = "redirect" then
    .ok { message := "Proxy matched redirect",
          proxyIndicator := proxyIndicator.type,
          proxyLevel := jsStringOfOpt (jsOrStr proxyIndicator.level (some "medium")) }
  else if proxyIndicator.type = "responseCode" then
    .ok { message := "Proxy matched response code",
          proxyIndicator := proxyIndicator.type,
          proxyLevel := jsStringOfOpt (jsOrStr proxyIndicator.level (some "medium")) }
  else if proxyIndicator.type = "captcha" then
    .ok { message := "Captcha handled",
          proxyIndicator := proxyIndicator.type,
          proxyLevel := jsStringOfOpt (jsOrStr proxyIndicator.level (some "medium")) }
  else
    .error "Unsupported proxyIndicator"

/-- A proxy candidate; identity for eviction purposes is `(host, port)`. -/
structure Proxy where
  host : String
  port : Int
  username : Option String := none
  password : Option String := none
deriving DecidableEq, Repr

/-- The `_proxy` field holds `null`, a single proxy object, or an array
(discriminated by `Array.isArray` in the source). -/
inductive ProxyConfig
  | null
  | single (p : Proxy)
  | list (l : List Proxy)
deriving DecidableEq, Repr

/-- Settlement outcome of a navigation waiter (`waitForPage` promise). -/
inductive NavOutcome
  | loaded
  | pageNotLoaded
  | navTimeout
deriving DecidableEq, Repr

/-- Settlement outcome of a request waiter (`waitForQuery` promise). -/
inductive ReqOutcome
  | resolved (url : String)
  | reqTimeout
deriving DecidableEq, Repr

/-- An entry of `_requestingActions`: the waiter's promise id and its URL
pattern. -/
structure RequestAction where
  id : Nat
  pattern : String
deriving DecidableEq, Repr

/-- The mutable instance state of `ChromeEnvironment` relevant to the core,
plus explicit bookkeeping for live timers and promise settlements. -/
structure EnvState where
  url : String
  proxyIndicators : List ProxyIndicator
  proxy : ProxyConfig
  proxyCurrent : Option Proxy
  proxyErrors : List ProxyError
  redirectUrls : List String
  navigationActions : List Nat
  navTimers : List Nat
  navSettled : List (Nat × NavOutcome)
  requestingActions : List RequestAction
  reqTimers : List Nat
  reqSettled : List (Nat × ReqOutcome)
deriving DecidableEq, Repr

/-- State as set up by the constructor (lines 130-147): empty error log, no
current proxy, empty redirect chain, empty waiter collections. -/
def initialState (url : String) (proxyIndicators : List ProxyIndicator)
    (proxy : ProxyConfig) : EnvState :=
  { url := url, proxyIndicators := proxyIndicators, proxy := proxy,
    proxyCurrent := none, proxyErrors := [], redirectUrls := [],
    navigationActions := [], navTimers := [], navSettled := [],
    requestingActions := [], reqTimers := [], reqSettled := [] }

/-! ## Proxy pool operations -/

/-- Embedding of `addProxyError` (lines 439-441): push appends at the end. -/
def addProxyError (st : EnvState) (error : ProxyError) : EnvState :=
  { st with proxyErrors := st.proxyErrors ++ [error] }

/-- Embedding of `getProxyErrors` (lines 446-448). -/
def getProxyErrors (st : EnvState) : List ProxyError :=
  st.proxyErrors

/-- Embedding of `getProxyIndicators` (lines 454-458). -/
def getProxyIndicators (st : EnvState) (type : String) : List ProxyIndicator :=
  st.proxyIndicators.filter (fun item => item.type = type)

/-- Embedding of `_validateProxy` (lines 464-468).  `pop()` both returns the
last array element and removes it from `_proxyErrors`; on an empty log the
method resolves without touching the state. -/
def validateProxy (st : EnvState) : Except ProxyError Unit × EnvState :=
  match st.proxyErrors.getLast? with
  | none => (.ok (), st)
  | some e => (.error e, { st with proxyErrors := st.proxyErrors.dropLast })

/-- `findIndex` on `(host, port)` identity followed by `splice(index, 1)`, as
performed by `_removeUnavailableProxy`: remove the first matching element and
return it; when nothing matches the list is unchanged. -/
def spliceFirst (pred : Proxy → Bool) : List Proxy → Option Proxy × List Proxy
  | [] => (none, [])
  | p :: rest =>
    if pred p then (some p, rest)
    else
      let r := spliceFirst pred rest
      (r.1, p :: r.2)

/-- Embedding of `_removeUnavailableProxy` (lines 529-543): a no-op returning
`null` unless `_proxy` is a non-empty array and `_proxyCurrent` is set;
otherwise evict the first list entry with the current candidate's
`(host, port)` identity. -/
def removeUnavailableProxy (st : EnvState) : Option Proxy × EnvState :=
  match st.proxy, st.proxyCurrent with
  | .list l, some current =>
    if l = [] then (none, st)
    else
      let r := spliceFirst (fun item => item.host == current.host && item.port == current.port) l
      match r.1 with
      | some removed => (some removed, { st with proxy := .list r.2 })
      | none => (none, st)
  | _, _ => (none, st)

/-- Embedding of `_rotateProxy` (lines 502-521).  `select` models the candidate
selection step: the caller-supplied `proxyRotator(list, currentProxy)` when
configured, otherwise lodash `sample` (which yields `undefined` on an empty
list).  It receives the list *after* eviction (the rotator is handed the same
spliced array) and the pre-rotation current proxy.  In the array branch the
error log is reset and the selection recorded as current; in the single-proxy
branch only the current proxy is set; with no proxy configured the call
returns `null` and changes nothing. -/
def rotateProxy (select : List Proxy → Option Proxy → Option Proxy)
    (st : EnvState) : Option Proxy × EnvState :=
  let currentProxy := st.proxyCurrent
  match st.proxy with
  | .null => (none, st)
  | .list _ =>
    let st1 := (removeUnavailableProxy st).2
    let remaining := match st1.proxy with | .list l => l | _ => []
    let foundProxy := select remaining currentProxy
    (foundProxy, { st1 with proxyErrors := [], proxyCurrent := foundProxy })
  | .single p => (some p, { st with proxyCurrent := some p })

/-- Pool size observable: length of the configured candidate list (0 when no
list is configured). -/
def poolLength (st : EnvState) : Nat :=
  match st.proxy with
  | .list l => l.length
  | _ => 0

/-- Iterated `_rotateProxy` calls (discarding the returned candidate). -/
def rotateIter (select : List Proxy → Option Proxy → Option Proxy) :
    Nat → EnvState → EnvState
  | 0, st => st
  | k + 1, st => rotateIter select k (rotateProxy select st).2

/-! ## Redirect extraction and pattern matching -/

/-- Embedding of `extractRedirectUrl` (lines 36-40): find the first header
whose lowercased key is `location`; an absent header or an empty (falsy) value
yields the empty string. -/
def extractRedirectUrl (response : Response) : String :=
  match response.headers.find? (fun kv => jsToLower kv.1 == "location") with
  | some kv => if kv.2 ≠ "" then getRedirectUrl response.requestUrl kv.2 else ""
  | none => ""

/-- Whether `pat` occurs at the start of `s`. -/
def prefixMatch : List Char → List Char → Bool
  | [], _ => true
  | _ :: _, [] => false
  | a :: as, b :: bs => a == b && prefixMatch as bs

/-- Whether `pat` occurs contiguously anywhere inside `s`; the empty pattern
occurs in every string. -/
def substrMatch (pat : List Char) : List Char → Bool
  | [] => prefixMatch pat []
  | c :: rest => prefixMatch pat (c :: rest) || substrMatch pat rest

/-- Truthiness of JS `s.match(pattern)` for literal (regex-metacharacter-free)
patterns: the match succeeds iff the pattern occurs as a substring of `s`.  An
`undefined` pattern (`new RegExp(undefined)`) behaves as the empty pattern,
which matches every string, as does an empty literal pattern. -/
def jsMatch (s : String) (pattern : Option String) : Bool :=
  match pattern with
  | none => true
  | some p => substrMatch p.data s.data

/-! ## Waiter registry -/

/-- JS promises are one-shot: settling an already settled navigation waiter is
a no-op.  Otherwise the outcome is logged in settlement order. -/
def settleNav (st : EnvState) (i : Nat) (o : NavOutcome) : EnvState :=
  if i ∈ st.navSettled.map Prod.fst then st
  else { st with navSettled := st.navSettled ++ [(i, o)] }

/-- One-shot settlement of a request waiter. -/
def settleReq (st : EnvState) (i : Nat) (o : ReqOutcome) : EnvState :=
  if i ∈ st.reqSettled.map Prod.fst then st
  else { st with reqSettled := st.reqSettled ++ [(i, o)] }

/-- The registration effect of `waitForPage` (lines 214-236): push a callback
onto `_navigationActions` and start the waiter's own timer. -/
def waitForPage (st : EnvState) (i : Nat) : EnvState :=
  { st with navigationActions := st.navigationActions ++ [i],
            navTimers := st.navTimers ++ [i] }

/-- The registration effect of `waitForQuery` (lines 238-261): push a
pattern-keyed callback onto `_requestingActions` and start the waiter's own
timer. -/
def waitForQuery (st : EnvState) (i : Nat) (pattern : String) : EnvState :=
  { st with requestingActions := st.requestingActions ++ [⟨i, pattern⟩],
            reqTimers := st.reqTimers ++ [i] }

/-- The `setTimeout` callback of `waitForPage` firing for waiter `i` (lines
218-222): only a still-live (never cleared) timer can fire; it resets
`_navigationActions` to the empty array and rejects its own waiter with the
page-navigation-timeout error.  The timers of the other waiters are not
cleared: their callbacks are discarded without running `clearTimeout`. -/
def fireNavTimeout (i : Nat) (st : EnvState) : EnvState :=
  if i ∈ st.navTimers then
    settleNav { st with navTimers := st.navTimers.erase i,
                        navigationActions := [] } i .navTimeout
  else st

/-- The `setTimeout` callback of `waitForQuery` firing for waiter `i` (lines
242-246): a live timer resets `_requestingActions` to the empty array and
rejects its own waiter with the waiting-request-timeout error. -/
def fireReqTimeout (i : Nat) (st : EnvState) : EnvState :=
  if i ∈ st.reqTimers then
    settleReq { st with reqTimers := st.reqTimers.erase i,
                        requestingActions := [] } i .reqTimeout
  else st

/-! ## Driver event handlers (`_handlePuppeteerEvents`) -/

/-- Embedding of the `load` handler (lines 612-615):
`this._navigationActions.splice(0).forEach(callback => callback())` — empty the
queue, then run each drained callback in order; a callback clears its waiter's
timer and resolves the waiter. -/
def onLoad (st : EnvState) : EnvState :=
  let ids := st.navigationActions
  ids.foldl
    (fun s i => settleNav { s with navTimers := s.navTimers.erase i } i .loaded)
    { st with navigationActions := [] }

/-- The scan loop of the `request` handler (lines 624-637), verbatim: starting
at index `i`, when `actions[i]` matches the URL the handler calls
`actions.shift()` — removing the *first* element of the array, whatever it is —
then fires `actions[i]`'s callback and rescans at the same index; on a
non-match it advances the index.  Returns the final array and the fired
callbacks in firing order. -/
def requestScanLoop (url : String) (actions : List RequestAction) (i : Nat) :
    List RequestAction × List RequestAction :=
  if h : i < actions.length then
    let action := actions.get ⟨i, h⟩
    if jsMatch url (some action.pattern) then
      let r := requestScanLoop url actions.tail i
      (r.1, action :: r.2)
    else
      requestScanLoop url actions (i + 1)
  else
    (actions, [])
termination_by actions.length - i
decreasing_by
  · simp only [List.length_tail]; omega
  · omega

/-- Embedding of the `request` handler: run the scan loop over
`_requestingActions`; every fired callback clears its waiter's timer and
resolves the waiter with the event's URL. -/
def onRequest (url : String) (st : EnvState) : EnvState :=
  let r := requestScanLoop url st.requestingActions 0
  r.2.foldl
    (fun s a => settleReq { s with reqTimers := s.reqTimers.erase a.id } a.id (.resolved url))
    { st with requestingActions := r.1 }

/-- Embedding of the `response` handler (lines 653-676).  On a 301/302 status:
compute the redirect target (empty when no usable `location` header); append it
to `_redirectUrls` only when it is non-empty and the responding request's URL
is the tracked URL or the current chain tail; then — unconditionally — test the
`redirect`-type indicators against the computed target string and record a
proxy error for the first match.  `createProxyError` throwing is modelled by
`Except`. -/
def onResponse (response : Response) (st : EnvState) : Except String EnvState :=
  let url := response.requestUrl
  if response.status = 302 ∨ response.status = 301 then
    let redirectUrl := extractRedirectUrl response
    let st1 :=
      if redirectUrl ≠ "" ∧ (url = st.url ∨ some url = st.redirectUrls.getLast?) then
        { st with redirectUrls := st.redirectUrls ++ [redirectUrl] }
      else st
    match (getProxyIndicators st1 "redirect").find?
        (fun item => jsMatch redirectUrl item.url) with
    | some matched => (createProxyError matched).map (addProxyError st1)
    | none => .ok st1
  else
    .ok st

/-- Embedding of the `requestfailed` handler (lines 678-691).  When the failed
request has an associated response, the `responseCode` indicators are tested
with `item.code === response.status` — the bare `status` property, i.e. the
method value, not its result.  Then, when the failed request's URL is the
tracked URL, `_navigationActions` is drained and every callback invoked with
the page-not-loaded error (each clears its waiter's timer and rejects the
waiter). -/
def onRequestFailed (requestUrl : String) (response : Option Response)
    (st : EnvState) : Except String EnvState :=
  let step1 : Except String EnvState :=
    match response with
    | some resp =>
      match (getProxyIndicators st "responseCode").find?
          (fun item => jsStrictEq item.codeProperty resp.statusProperty) with
      | some matched => (createProxyError matched).map (addProxyError st)
      | none => .ok st
    | none => .ok st
  step1.map (fun st1 =>
    if requestUrl = st1.url then
      let ids := st1.navigationActions
      ids.foldl
        (fun s i => settleNav { s with navTimers := s.navTimers.erase i } i .pageNotLoaded)
        { st1 with navigationActions := [] }
    else st1)

/-- Embedding of `hasRedirect` (lines 579-584). -/
def hasRedirect (st : EnvState) (urlPattern : Option String) : Bool :=
  match urlPattern with
  | none => decide (st.redirectUrls.length > 0)
  | some pattern => st.redirectUrls.any (fun url => jsMatch url (some pattern))

/-! ## Concrete inputs used by witnesses and counterexamples -/

/-- Selection policy taking the first remaining candidate: a legitimate
deterministic `proxyRotator`. -/
def headSelect : List Proxy → Option Proxy → Option Proxy := fun l _ => l.head?

def proxyA : Proxy := { host := "1.1.1.1", port := 80 }

def proxyB : Proxy := { host := "2.2.2.2", port := 81 }

def sampleError : ProxyError :=
  { message := "Proxy matched redirect", proxyIndicator := "redirect",
    proxyLevel := "medium" }

def sampleError2 : ProxyError :=
  { message := "Proxy matched response code", proxyIndicator := "responseCode",
    proxyLevel := "high" }

/-- Indicator of the C1 scenario: `{type: responseCode, code: 503, level: high}`. -/
def c1Indicator : ProxyIndicator :=
  { type := "responseCode", level := some "high", code := some 503 }

def c1State : EnvState := initialState "http://example.com/" [c1Indicator] .null

/-- A failed request's associated response with status 503. -/
def c1Response : Response :=
  { status := 503, headers := [], requestUrl := "http://example.com/api" }

/-- Two request waiters: waiter 1 on pattern `alpha`, waiter 2 on pattern
`beta`, registered in that order. -/
def twoReqWaitersState : EnvState :=
  waitForQuery (waitForQuery (initialState "http://s.test/" [] .null) 1 "alpha") 2 "beta"

/-- Two navigation waiters 1 and 2, registered in that order. -/
def twoNavWaitersState : EnvState :=
  waitForPage (waitForPage (initialState "http://s.test/" [] .null) 1) 2

/-- Redirect indicator whose empty `url` pattern matches every string,
including the empty one. -/
def c9Indicator : ProxyIndicator :=
  { type := "redirect", level := some "medium", url := some "" }

def c9State : EnvState := initialState "http://a.com/x" [c9Indicator] .null

/-- A 302 response carrying no `location` header. -/
def c9Response : Response :=
  { status := 302, headers := [("content-type", "text/html")],
    requestUrl := "http://a.com/x" }

/-- Single fixed proxy with one already-recorded error in the log. -/
def c7State : EnvState :=
  { initialState "http://s.test/" [] (.single proxyA) with proxyErrors := [sampleError] }

/-- State with a two-entry error log (`sampleError` recorded first,
`sampleError2` most recently). -/
def twoErrorsState : EnvState :=
  { initialState "http://s.test/" [] .null with proxyErrors := [sampleError, sampleError2] }

/-- Invariant carried through iterated rotations: either the current
candidate's `(host, port)` identity occurs in the configured list, or there is
no current candidate and the list is exhausted. -/
def GoodCur (st : EnvState) (l : List Proxy) : Prop :=
  (∃ c, st.proxyCurrent = some c ∧ ∃ p ∈ l, (p.host == c.host && p.port == c.port) = true) ∨
  (st.proxyCurrent = none ∧ l = [])

/-! ## Supporting lemmas -/

theorem settleNav_proxyErrors (st : EnvState) (i : Nat) (o : NavOutcome) :
    (settleNav st i o).proxyErrors = st.proxyErrors := by
  unfold settleNav; split <;> rfl

theorem settleReq_proxyErrors (st : EnvState) (i : Nat) (o : ReqOutcome) :
    (settleReq st i o).proxyErrors = st.proxyErrors := by
  unfold settleReq; split <;> rfl

theorem navDrain_proxyErrors (ids : List Nat) (o : NavOutcome) (st : EnvState) :
    (ids.foldl (fun s i => settleNav { s with navTimers := s.navTimers.erase i } i o)
      st).proxyErrors = st.proxyErrors := by
  induction ids generalizing st with
  | nil => rfl
  | cons a as ih => simp only [List.foldl_cons]; rw [ih, settleNav_proxyErrors]

theorem reqDrain_proxyErrors (acts : List RequestAction) (url : String) (st : EnvState) :
    (acts.foldl
      (fun s a => settleReq { s with reqTimers := s.reqTimers.erase a.id } a.id (.resolved url))
      st).proxyErrors = st.proxyErrors := by
  induction acts generalizing st with
  | nil => rfl
  | cons a as ih => simp only [List.foldl_cons]; rw [ih, settleReq_proxyErrors]

theorem envState_eta_nav (s : EnvState) (h : s.navigationActions = []) :
    { s with navigationActions := ([] : List Nat) } = s := by
  cases s; simp_all

theorem envState_eta_req (s : EnvState) (h : s.requestingActions = []) :
    { s with requestingActions := ([] : List RequestAction) } = s := by
  cases s; simp_all

/-- The scan loop of the `request` handler, characterized: starting at index
`i` it fires the callback of every action from position `i` on whose pattern
matches, and removes from the *front* of the array as many elements as there
were matches. -/
theorem requestScanLoop_spec (url : String) (actions : List RequestAction) (i : Nat) :
    requestScanLoop url actions i =
      (actions.drop (((actions.drop i).filter (fun a => jsMatch url (some a.pattern))).length),
       (actions.drop i).filter (fun a => jsMatch url (some a.pattern))) := by
  induction actions, i using requestScanLoop.induct url with
  | case1 actions i h act hm ih =>
    rw [requestScanLoop]
    rw [dif_pos h, if_pos hm, ih]
    have hdropi : actions.drop i = actions.get ⟨i, h⟩ :: actions.drop (i + 1) := by
      rw [List.get_eq_getElem, List.drop_eq_getElem_cons h]
    have htail : ∀ n : Nat, actions.tail.drop n = actions.drop (n + 1) := by
      intro n
      rw [← List.drop_one, List.drop_drop, Nat.add_comm]
    rw [hdropi]
    rw [List.filter_cons, if_pos hm]
    simp only [htail, List.length_cons]
  | case2 actions i h act hm ih =>
    rw [requestScanLoop]
    rw [dif_pos h, if_neg hm, ih]
    have hdropi : actions.drop i = actions.get ⟨i, h⟩ :: actions.drop (i + 1) := by
      rw [List.get_eq_getElem, List.drop_eq_getElem_cons h]
    rw [hdropi, List.filter_cons, if_neg hm]
  | case3 actions i h =>
    rw [requestScanLoop]
    rw [dif_neg h]
    have hnil : actions.drop i = [] := List.drop_eq_nil_of_le (by omega)
    rw [hnil]
    rfl

/-- The `request` handler, characterized: it settles *every* matching pending
waiter with the event URL and removes that many elements from the front of the
collection, whether or not they matched. -/
theorem onRequest_spec (url : String) (st : EnvState) :
    onRequest url st =
      (st.requestingActions.filter (fun a => jsMatch url (some a.pattern))).foldl
        (fun s a => settleReq { s with reqTimers := s.reqTimers.erase a.id } a.id (.resolved url))
        { st with requestingActions := st.requestingActions.drop (st.requestingActions.filter (fun a => jsMatch url (some a.pattern))).length } := by
  unfold onRequest
  rw [requestScanLoop_spec]
  simp

/-- The `requestfailed` handler always succeeds and reduces to the
navigation-queue drain: the `responseCode` indicator comparison
`item.code === response.status` tests a number (or `undefined`) against the
`status` method itself and is therefore never true. -/
theorem jsStrictEq_code_method (item : ProxyIndicator) (r : Response) :
    jsStrictEq item.codeProperty r.statusProperty = false := by
  cases h : item.code <;>
    simp [ProxyIndicator.codeProperty, Response.statusProperty, jsStrictEq, h]

theorem onRequestFailed_eq (u : String) (r : Option Response) (st : EnvState) :
    onRequestFailed u r st = .ok
      (if u = st.url then
        st.navigationActions.foldl
          (fun s i => settleNav { s with navTimers := s.navTimers.erase i } i .pageNotLoaded)
          { st with navigationActions := [] }
      else st) := by
  unfold onRequestFailed
  cases r with
  | none => rfl
  | some resp =>
    have hfind : List.find? (fun item => jsStrictEq item.codeProperty resp.statusProperty)
        (getProxyIndicators st "responseCode") = none :=
      List.find?_eq_none.mpr (fun x _ => by simp [jsStrictEq_code_method])
    simp only [hfind]
    rfl

theorem spliceFirst_found (pred : Proxy → Bool) (l : List Proxy)
    (h : ∃ p ∈ l, pred p = true) :
    ∃ q, (spliceFirst pred l).1 = some q ∧ (spliceFirst pred l).2.length + 1 = l.length := by
  induction l with
  | nil => obtain ⟨p, hp, _⟩ := h; cases hp
  | cons a rest ih =>
    by_cases ha : pred a = true
    · exact ⟨a, by simp [spliceFirst, ha]⟩
    · obtain ⟨p, hp, hpred⟩ := h
      have hp' : p ∈ rest := by
        rcases List.mem_cons.mp hp with rfl | hmem
        · exact absurd hpred ha
        · exact hmem
      obtain ⟨q, h1, h2⟩ := ih ⟨p, hp', hpred⟩
      refine ⟨q, ?_, ?_⟩ <;> simp [spliceFirst, ha, h1]
      omega

theorem rotateProxy_list_current_none (select : List Proxy → Option Proxy → Option Proxy)
    (st : EnvState) (l : List Proxy)
    (hl : st.proxy = .list l) (hc : st.proxyCurrent = none) :
    rotateProxy select st =
      (select l none, { st with proxyErrors := [], proxyCurrent := select l none }) := by
  unfold rotateProxy removeUnavailableProxy
  rw [hc]
  simp only [hl, hc]

theorem rotateProxy_list_current_some (select : List Proxy → Option Proxy → Option Proxy)
    (st : EnvState) (l : List Proxy) (c : Proxy)
    (hl : st.proxy = .list l) (hc : st.proxyCurrent = some c)
    (hmem : ∃ p ∈ l, (p.host == c.host && p.port == c.port) = true) :
    ∃ l', rotateProxy select st =
        (select l' (some c),
         { st with proxy := .list l', proxyErrors := [],
                   proxyCurrent := select l' (some c) }) ∧
      l'.length + 1 = l.length := by
  have hne : l ≠ [] := by rintro rfl; obtain ⟨p, hp, _⟩ := hmem; cases hp
  obtain ⟨q, h1, h2⟩ :=
    spliceFirst_found (fun item => item.host == c.host && item.port == c.port) l hmem
  refine ⟨(spliceFirst (fun item => item.host == c.host && item.port == c.port) l).2, ?_, h2⟩
  unfold rotateProxy removeUnavailableProxy
  rw [hc]
  simp only [hl, hc, if_neg hne, h1]

theorem rotateIter_list (select : List Proxy → Option Proxy → Option Proxy)
    (h1 : ∀ l cur, l ≠ [] → ∃ p ∈ l, select l cur = some p)
    (h2 : ∀ cur, select [] cur = none) :
    ∀ (j : Nat) (st : EnvState) (l : List Proxy),
      st.proxy = .list l → GoodCur st l →
      ∃ l', (rotateIter select j st).proxy = .list l' ∧
        l'.length = l.length - j ∧ GoodCur (rotateIter select j st) l' := by
  intro j
  induction j with
  | zero => intro st l hl hg; exact ⟨l, hl, by omega, hg⟩
  | succ j ih =>
    intro st l hl hg
    rcases hg with ⟨c, hc, hmem⟩ | ⟨hc, rfl⟩
    · obtain ⟨l'', hrot, hlen⟩ := rotateProxy_list_current_some select st l c hl hc hmem
      have hst2 : (rotateProxy select st).2.proxy = .list l'' := by rw [hrot]
      have hgood2 : GoodCur (rotateProxy select st).2 l'' := by
        cases l'' with
        | nil =>
          right
          refine ⟨?_, rfl⟩
          rw [hrot]
          exact h2 (some c)
        | cons a rest =>
          obtain ⟨p, hp, hsel⟩ := h1 (a :: rest) (some c) (by simp)
          left
          refine ⟨p, ?_, p, hp, by simp⟩
          rw [hrot]
          exact hsel
      obtain ⟨l', hproxy, hlen', hgood'⟩ := ih (rotateProxy select st).2 l'' hst2 hgood2
      exact ⟨l', hproxy, by omega, hgood'⟩
    · have hrot := rotateProxy_list_current_none select st [] hl hc
      have hst2 : (rotateProxy select st).2.proxy = .list [] := by rw [hrot]; exact hl
      have hgood2 : GoodCur (rotateProxy select st).2 [] := by
        right
        refine ⟨?_, rfl⟩
        rw [hrot]
        exact h2 none
      obtain ⟨l', hproxy, hlen', hgood'⟩ := ih (rotateProxy select st).2 [] hst2 hgood2
      refine ⟨l', hproxy, ?_, hgood'⟩
      simp only [List.length_nil] at hlen' ⊢
      omega

/-! ## Claim theorems -/

/-- C1: contrary to the claim, a `responseCode` indicator with code 503 and a
failed request whose associated response has status 503 record *no* proxy
error: the handler compares `item.code` with the bare `status` method of the
response (missing call parentheses), which is never strictly equal to a
number, so the `requestfailed` handler leaves the proxy error log unchanged on
every input. -/
theorem c1_responseCode_matcher_never_fires :
    onRequestFailed "http://example.com/api" (some c1Response) c1State = .ok c1State ∧
    ∀ (st : EnvState) (u : String) (r : Option Response),
      ∃ st', onRequestFailed u r st = .ok st' ∧ st'.proxyErrors = st.proxyErrors := by
  constructor
  · rfl
  · intro st u r
    refine ⟨_, onRequestFailed_eq u r st, ?_⟩
    split
    · exact navDrain_proxyErrors _ _ _
    · rfl

/-- C2 counterexample: with request waiters 1 (pattern `alpha`) and 2 (pattern
`beta`) pending, waiter 1's own timeout empties the whole collection and
rejects waiter 1; waiter 2 does not remain in the collection, contrary to the
claim. -/
theorem c2_counterexample :
    (fireReqTimeout 1 twoReqWaitersState).requestingActions = [] ∧
    (fireReqTimeout 1 twoReqWaitersState).reqSettled = [(1, .reqTimeout)] ∧
    ¬ ∃ a ∈ (fireReqTimeout 1 twoReqWaitersState).requestingActions, a.id = 2 := by
  decide

/-- C2 (amended): a request waiter's own timeout clears the *entire*
request-waiter collection and rejects that waiter with the timeout error;
every other pending waiter is removed from the collection as well — a later
`request` event settles nothing — but its own timer stays live and firing it
still rejects that waiter. -/
theorem c2_amended_timeout_clears_all (st : EnvState) (i : Nat)
    (hi : i ∈ st.reqTimers) (hs : i ∉ st.reqSettled.map Prod.fst) :
    (fireReqTimeout i st).requestingActions = [] ∧
    (fireReqTimeout i st).reqSettled = st.reqSettled ++ [(i, .reqTimeout)] ∧
    (∀ j, j ≠ i → j ∈ st.reqTimers → j ∈ (fireReqTimeout i st).reqTimers) ∧
    (∀ u, onRequest u (fireReqTimeout i st) = fireReqTimeout i st) ∧
    (∀ j, j ≠ i → j ∈ st.reqTimers → j ∉ st.reqSettled.map Prod.fst →
      (fireReqTimeout j (fireReqTimeout i st)).reqSettled =
        st.reqSettled ++ [(i, .reqTimeout), (j, .reqTimeout)]) := by
  have hstep : fireReqTimeout i st =
      { st with reqTimers := st.reqTimers.erase i, requestingActions := [],
                reqSettled := st.reqSettled ++ [(i, .reqTimeout)] } := by
    simp [fireReqTimeout, settleReq, hi, hs]
  refine ⟨by rw [hstep], by rw [hstep], ?_, ?_, ?_⟩
  · intro j hj hjt
    rw [hstep]
    exact (List.mem_erase_of_ne hj).mpr hjt
  · intro u
    rw [hstep, onRequest_spec]
    rfl
  · intro j hj hjt hjs
    rw [hstep]
    have hjt' : j ∈ st.reqTimers.erase i := (List.mem_erase_of_ne hj).mpr hjt
    simp [fireReqTimeout, settleReq, hjt', hjs, hj]

/-- C3: evidence of the `shift` bug in the `request` handler's scan loop.
With waiters 1 (pattern `alpha`) and 2 (pattern `beta`) registered in that
order and a request event for URL `beta`, the code removes the *non-matching*
waiter 1 from the collection (never settling it, though its timer stays live)
and leaves the settled matching waiter 2 in the collection — the loop shifts
the front element instead of splicing out the matched index. -/
theorem c3_request_scan_shift_bug :
    (onRequest "beta" twoReqWaitersState).requestingActions = [⟨2, "beta"⟩] ∧
    (onRequest "beta" twoReqWaitersState).reqSettled = [(2, .resolved "beta")] ∧
    (onRequest "beta" twoReqWaitersState).reqTimers = [1] := by
  rw [onRequest_spec]
  decide

/-- C4 counterexample: with a configured list of N = 1 candidates, a single
`rotate()` call leaves 1 candidate in the pool, not `max(N-k, 0) = 0`: the
eviction step removes the *previously* active candidate, and on the first call
there is none. -/
theorem c4_counterexample :
    poolLength (rotateIter headSelect 1 (initialState "http://s.test/" [] (.list [proxyA]))) ≠
      max (1 - 1) 0 ∧
    poolLength (rotateIter headSelect 1 (initialState "http://s.test/" [] (.list [proxyA]))) = 1 := by
  decide

/-- C4 (amended): starting from a list of N candidates with no active one,
after k ≥ 1 sequential `rotate()` calls with no refill exactly
`max(N-(k-1), 0) = N + 1 - k` candidates remain (each call first evicts the
previous call's selection; the first call evicts nothing), provided the
selection policy returns a member of the remaining list when it is non-empty
and nothing otherwise (as lodash `sample` and any well-behaved rotator do);
and once the pool is exhausted, a further `rotate()` deterministically returns
"none" and keeps the pool empty, rather than throwing. -/
theorem c4_amended_rotation_count (select : List Proxy → Option Proxy → Option Proxy)
    (u : String) (inds : List ProxyIndicator) (ps : List Proxy) (k : Nat)
    (h1 : ∀ l cur, l ≠ [] → ∃ p ∈ l, select l cur = some p)
    (h2 : ∀ cur, select [] cur = none)
    (hk : 1 ≤ k) :
    poolLength (rotateIter select k (initialState u inds (.list ps))) = ps.length + 1 - k ∧
    (ps.length + 1 ≤ k →
      (rotateProxy select (rotateIter select k (initialState u inds (.list ps)))).1 = none ∧
      poolLength (rotateProxy select (rotateIter select k (initialState u inds (.list ps)))).2 = 0) := by
  obtain ⟨k', rfl⟩ : ∃ k', k = k' + 1 := ⟨k - 1, by omega⟩
  have hrot1 := rotateProxy_list_current_none select (initialState u inds (.list ps)) ps rfl rfl
  have hp1 : (rotateProxy select (initialState u inds (.list ps))).2.proxy = .list ps := by
    rw [hrot1]
    rfl
  have hg1 : GoodCur (rotateProxy select (initialState u inds (.list ps))).2 ps := by
    by_cases hps : ps = []
    · right
      refine ⟨?_, hps⟩
      rw [hrot1]
      show select ps none = none
      rw [hps]
      exact h2 none
    · obtain ⟨p, hp, hsel⟩ := h1 ps none hps
      left
      refine ⟨p, ?_, p, hp, by simp⟩
      rw [hrot1]
      exact hsel
  obtain ⟨l', hproxy, hlen, hgood⟩ :=
    rotateIter_list select h1 h2 k' (rotateProxy select (initialState u inds (.list ps))).2 ps hp1 hg1
  have hiter : rotateIter select (k' + 1) (initialState u inds (.list ps)) =
      rotateIter select k' (rotateProxy select (initialState u inds (.list ps))).2 := rfl
  constructor
  · rw [hiter]
    simp only [poolLength, hproxy]
    omega
  · intro hge
    have hl0 : l'.length = 0 := by omega
    have hl' : l' = [] := List.length_eq_zero.mp hl0
    subst hl'
    have hcur : (rotateIter select k'
        (rotateProxy select (initialState u inds (.list ps))).2).proxyCurrent = none := by
      rcases hgood with ⟨c, hc, p, hp, _⟩ | ⟨hc, _⟩
      · cases hp
      · exact hc
    have hrotF := rotateProxy_list_current_none select
      (rotateIter select k' (rotateProxy select (initialState u inds (.list ps))).2) []
      hproxy hcur
    rw [hiter, hrotF]
    refine ⟨h2 none, ?_⟩
    simp only [poolLength]
    rw [show ({ rotateIter select k' (rotateProxy select (initialState u inds (.list ps))).2 with
      proxyErrors := ([] : List ProxyError),
      proxyCurrent := select [] none } : EnvState).proxy =
        (rotateIter select k' (rotateProxy select (initialState u inds (.list ps))).2).proxy from rfl,
      hproxy]
    rfl

/-- C5: `validate()` resolves exactly when the proxy error log is empty;
otherwise it rejects with the most recently appended entry of the log — the
last element, since `addProxyError` pushes at the end. -/
theorem c5_validate_empty_or_last (st : EnvState) :
    ((validateProxy st).1 = .ok () ↔ getProxyErrors st = []) ∧
    (∀ e, (getProxyErrors st).getLast? = some e → (validateProxy st).1 = .error e) ∧
    (∀ e, (getProxyErrors (addProxyError st e)).getLast? = some e) := by
  refine ⟨⟨?_, ?_⟩, ?_, ?_⟩
  · intro hok
    by_contra hne
    have hne' : st.proxyErrors.getLast? ≠ none := by
      simpa [getProxyErrors, List.getLast?_eq_none_iff] using hne
    obtain ⟨e, he⟩ := Option.ne_none_iff_exists'.mp hne'
    simp [validateProxy, he] at hok
  · intro hnil
    have hnone : st.proxyErrors.getLast? = none :=
      List.getLast?_eq_none_iff.mpr (by simpa [getProxyErrors] using hnil)
    simp [validateProxy, hnone]
  · intro e he
    have he' : st.proxyErrors.getLast? = some e := by simpa [getProxyErrors] using he
    simp [validateProxy, he']
  · intro e
    simp [getProxyErrors, addProxyError, List.getLast?_concat]

/-- C5 witness: with two recorded errors, `validate()` rejects with the second
(most recent) one, and the log-empty test is exercised. -/
theorem c5_witness :
    ((validateProxy twoErrorsState).1 = .ok () ↔ getProxyErrors twoErrorsState = []) ∧
    (validateProxy twoErrorsState).1 = .error sampleError2 ∧
    (getProxyErrors (addProxyError twoErrorsState sampleError)).getLast? = some sampleError := by
  have h := c5_validate_empty_or_last twoErrorsState
  exact ⟨h.1, h.2.1 sampleError2 (by rfl), h.2.2 sampleError⟩

/-- C2 witness: the amended statement exercised at the two-waiter state with
waiter 1 timing out. -/
theorem c2_witness :
    (fireReqTimeout 1 twoReqWaitersState).requestingActions = [] ∧
    (fireReqTimeout 1 twoReqWaitersState).reqSettled =
      twoReqWaitersState.reqSettled ++ [(1, .reqTimeout)] ∧
    (∀ j, j ≠ 1 → j ∈ twoReqWaitersState.reqTimers →
      j ∈ (fireReqTimeout 1 twoReqWaitersState).reqTimers) ∧
    (∀ u, onRequest u (fireReqTimeout 1 twoReqWaitersState) =
      fireReqTimeout 1 twoReqWaitersState) ∧
    (∀ j, j ≠ 1 → j ∈ twoReqWaitersState.reqTimers →
      j ∉ twoReqWaitersState.reqSettled.map Prod.fst →
      (fireReqTimeout j (fireReqTimeout 1 twoReqWaitersState)).reqSettled =
        twoReqWaitersState.reqSettled ++ [(1, .reqTimeout), (j, .reqTimeout)]) :=
  c2_amended_timeout_clears_all twoReqWaitersState 1 (by decide) (by decide)

/-- C4 witness: the amended rotation count exercised at N = 2, k = 3 with the
head-of-list rotation policy: the pool is exhausted and the next `rotate()`
returns "none". -/
theorem c4_witness :
    poolLength (rotateIter headSelect 3
      (initialState "http://s.test/" [] (.list [proxyA, proxyB]))) =
      [proxyA, proxyB].length + 1 - 3 ∧
    ([proxyA, proxyB].length + 1 ≤ 3 →
      (rotateProxy headSelect (rotateIter headSelect 3
        (initialState "http://s.test/" [] (.list [proxyA, proxyB])))).1 = none ∧
      poolLength (rotateProxy headSelect (rotateIter headSelect 3
        (initialState "http://s.test/" [] (.list [proxyA, proxyB])))).2 = 0) :=
  c4_amended_rotation_count headSelect "http://s.test/" [] [proxyA, proxyB] 3
    (fun l cur hne => by
      cases l with
      | nil => exact absurd rfl hne
      | cons a as => exact ⟨a, List.mem_cons_self a as, rfl⟩)
    (fun cur => rfl)
    (by omega)

/-- C6 counterexample: with navigation waiters 1 and 2 pending, waiter 1's
timeout rejects waiter 1 and clears the queue while waiter 2's timer stays
live; when that timer later fires, waiter 2 *does* settle (rejected with the
timeout error), contrary to the claim that it never settles. -/
theorem c6_counterexample :
    (fireNavTimeout 1 twoNavWaitersState).navigationActions = [] ∧
    (fireNavTimeout 1 twoNavWaitersState).navSettled = [(1, .navTimeout)] ∧
    2 ∈ (fireNavTimeout 1 twoNavWaitersState).navTimers ∧
    (fireNavTimeout 2 (fireNavTimeout 1 twoNavWaitersState)).navSettled =
      [(1, .navTimeout), (2, .navTimeout)] := by
  decide

/-- C6 (amended): a navigation waiter's own timeout rejects that waiter with
the timeout error and clears the entire navigation waiter queue, so no other
waiter pending at that moment can ever be settled by a later `load` or
`requestfailed` event; but each such waiter's own timer stays live, and when it
fires the waiter is rejected with the timeout error, so it does eventually
settle. -/
theorem c6_amended_timeout_abandons_queue (st : EnvState) (i : Nat)
    (hi : i ∈ st.navTimers) (hs : i ∉ st.navSettled.map Prod.fst) :
    (fireNavTimeout i st).navigationActions = [] ∧
    (fireNavTimeout i st).navSettled = st.navSettled ++ [(i, .navTimeout)] ∧
    onLoad (fireNavTimeout i st) = fireNavTimeout i st ∧
    (∀ u, onRequestFailed u none (fireNavTimeout i st) = .ok (fireNavTimeout i st)) ∧
    (∀ j, j ≠ i → j ∈ st.navTimers → j ∈ (fireNavTimeout i st).navTimers) ∧
    (∀ j, j ≠ i → j ∈ st.navTimers → j ∉ st.navSettled.map Prod.fst →
      (fireNavTimeout j (fireNavTimeout i st)).navSettled =
        st.navSettled ++ [(i, .navTimeout), (j, .navTimeout)]) := by
  have hstep : fireNavTimeout i st =
      { st with navTimers := st.navTimers.erase i, navigationActions := [],
                navSettled := st.navSettled ++ [(i, .navTimeout)] } := by
    simp [fireNavTimeout, settleNav, hi, hs]
  refine ⟨by rw [hstep], by rw [hstep], ?_, ?_, ?_, ?_⟩
  · rw [hstep]
    rfl
  · intro u
    rw [hstep, onRequestFailed_eq]
    split <;> rfl
  · intro j hj hjt
    rw [hstep]
    exact (List.mem_erase_of_ne hj).mpr hjt
  · intro j hj hjt hjs
    rw [hstep]
    have hjt' : j ∈ st.navTimers.erase i := (List.mem_erase_of_ne hj).mpr hjt
    simp [fireNavTimeout, settleNav, hjt', hjs, hj]

/-- C6 witness: the amended statement exercised at the two-navigation-waiter
state with waiter 1 timing out. -/
theorem c6_witness :
    (fireNavTimeout 1 twoNavWaitersState).navigationActions = [] ∧
    (fireNavTimeout 1 twoNavWaitersState).navSettled =
      twoNavWaitersState.navSettled ++ [(1, .navTimeout)] ∧
    onLoad (fireNavTimeout 1 twoNavWaitersState) = fireNavTimeout 1 twoNavWaitersState ∧
    (∀ u, onRequestFailed u none (fireNavTimeout 1 twoNavWaitersState) =
      .ok (fireNavTimeout 1 twoNavWaitersState)) ∧
    (∀ j, j ≠ 1 → j ∈ twoNavWaitersState.navTimers →
      j ∈ (fireNavTimeout 1 twoNavWaitersState).navTimers) ∧
    (∀ j, j ≠ 1 → j ∈ twoNavWaitersState.navTimers →
      j ∉ twoNavWaitersState.navSettled.map Prod.fst →
      (fireNavTimeout j (fireNavTimeout 1 twoNavWaitersState)).navSettled =
        twoNavWaitersState.navSettled ++ [(1, .navTimeout), (j, .navTimeout)]) :=
  c6_amended_timeout_abandons_queue twoNavWaitersState 1 (by decide) (by decide)

/-- C7 counterexample: with a single fixed proxy and a non-empty error log,
`rotate()` makes the candidate active (there was no current candidate) yet the
error log is *not* cleared, contrary to the claim that every rotation that
activates a candidate clears the log. -/
theorem c7_counterexample :
    c7State.proxyCurrent = none ∧
    (rotateProxy headSelect c7State).1 = some proxyA ∧
    (rotateProxy headSelect c7State).2.proxyCurrent = some proxyA ∧
    (rotateProxy headSelect c7State).2.proxyErrors = [sampleError] := by
  decide

/-- C7 (amended): `rotate()` clears the error log exactly when the configured
proxy is a list — including an exhausted list that yields no new active
candidate — while the single-candidate branch activates its candidate without
clearing the log and the no-proxy branch changes nothing; and among the
modelled operations only `addProxyError` (the matcher's append), the list
branch of `rotate()` (clear) and a rejecting `validate()` (drain of the last
entry) ever change the log. -/
theorem c7_amended_log_mutation (select : List Proxy → Option Proxy → Option Proxy)
    (st : EnvState) :
    (∀ p, st.proxy = .single p →
      (rotateProxy select st).2.proxyErrors = st.proxyErrors ∧
      (rotateProxy select st).2.proxyCurrent = some p) ∧
    (∀ l, st.proxy = .list l → (rotateProxy select st).2.proxyErrors = []) ∧
    (st.proxy = .null → (rotateProxy select st).2 = st) ∧
    (∀ e, (addProxyError st e).proxyErrors = st.proxyErrors ++ [e]) ∧
    ((validateProxy st).2.proxyErrors = st.proxyErrors ∨
      (validateProxy st).2.proxyErrors = st.proxyErrors.dropLast) ∧
    (∀ i, (fireNavTimeout i st).proxyErrors = st.proxyErrors) ∧
    (∀ i, (fireReqTimeout i st).proxyErrors = st.proxyErrors) ∧
    ((onLoad st).proxyErrors = st.proxyErrors) ∧
    (∀ u, (onRequest u st).proxyErrors = st.proxyErrors) ∧
    ((removeUnavailableProxy st).2.proxyErrors = st.proxyErrors) ∧
    (∀ i, (waitForPage st i).proxyErrors = st.proxyErrors) ∧
    (∀ i pat, (waitForQuery st i pat).proxyErrors = st.proxyErrors) := by
  refine ⟨?_, ?_, ?_, fun e => rfl, ?_, ?_, ?_, ?_, ?_, ?_, fun i => rfl, fun i pat => rfl⟩
  · intro p hp
    simp [rotateProxy, hp]
  · intro l hl
    simp [rotateProxy, hl]
  · intro hn
    simp [rotateProxy, hn]
  · unfold validateProxy
    cases h : st.proxyErrors.getLast? with
    | none => left; rfl
    | some e => right; rfl
  · intro i
    unfold fireNavTimeout
    split
    · rw [settleNav_proxyErrors]
    · rfl
  · intro i
    unfold fireReqTimeout
    split
    · rw [settleReq_proxyErrors]
    · rfl
  · unfold onLoad
    rw [navDrain_proxyErrors]
  · intro u
    rw [onRequest_spec, reqDrain_proxyErrors]
  · unfold removeUnavailableProxy
    rcases hp : st.proxy with _ | p | l <;> rcases hc : st.proxyCurrent with _ | c <;> simp
    split
    · rfl
    · split <;> rfl

/-- C7 witness: the amended statement exercised at the single-proxy state with
a non-empty log. -/
theorem c7_witness :
    (rotateProxy headSelect c7State).2.proxyErrors = c7State.proxyErrors ∧
    (rotateProxy headSelect c7State).2.proxyCurrent = some proxyA :=
  (c7_amended_log_mutation headSelect c7State).1 proxyA rfl

/-- C8: the Redirect Resolver merges the redirect target against the current
URL — hostname and protocol are taken from the target when present, else from
the current URL, and the target's path/query are kept verbatim; in particular
`http://a.com/x` with target `/y` yields `http://a.com/y`, and with target
`https://b.com/z` yields `https://b.com/z`. -/
theorem c8_redirect_merge (cur tgt pc hc : String)
    (hp : (parseUrl cur).protocol = some pc)
    (hh : (parseUrl cur).hostname = some hc) :
    getRedirectUrl cur tgt =
      jsStringOfOpt (jsOrStr (parseUrl tgt).protocol (some pc)) ++ "//" ++
        jsStringOfOpt (jsOrStr (parseUrl tgt).hostname (some hc)) ++ (parseUrl tgt).path ∧
    getRedirectUrl "http://a.com/x" "/y" = "http://a.com/y" ∧
    getRedirectUrl "http://a.com/x" "https://b.com/z" = "https://b.com/z" := by
  refine ⟨?_, by decide, by decide⟩
  simp only [getRedirectUrl]
  rw [hp, hh]

/-- C8 witness: the merge statement exercised at base `http://a.com/x` and
target `/y`. -/
theorem c8_witness :
    (parseUrl "http://a.com/x").protocol = some "http:" ∧
    (parseUrl "http://a.com/x").hostname = some "a.com" ∧
    (getRedirectUrl "http://a.com/x" "/y" =
      jsStringOfOpt (jsOrStr (parseUrl "/y").protocol (some "http:")) ++ "//" ++
        jsStringOfOpt (jsOrStr (parseUrl "/y").hostname (some "a.com")) ++ (parseUrl "/y").path ∧
     getRedirectUrl "http://a.com/x" "/y" = "http://a.com/y" ∧
     getRedirectUrl "http://a.com/x" "https://b.com/z" = "https://b.com/z") :=
  ⟨by decide, by decide,
    c8_redirect_merge "http://a.com/x" "/y" "http:" "a.com" (by decide) (by decide)⟩

/-- C9 counterexample: a 302 response with no `location` header appends
nothing to the redirect chain, but the redirect-indicator check still runs
against the empty string: an indicator whose (empty) `url` pattern matches the
empty string records a proxy error, contrary to the claim that no `ProxyError`
can be recorded from such an event. -/
theorem c9_counterexample :
    c9Response.headers.find? (fun kv => jsToLower kv.1 == "location") = none ∧
    onResponse c9Response c9State = .ok { c9State with proxyErrors := [sampleError] } :=
  ⟨rfl, rfl⟩

/-- C9 (amended): on a 301/302 response with no `location` header nothing is
appended to the redirect chain, but the `redirect`-type indicators are still
tested against the empty redirect string: the first indicator whose `url`
pattern matches the empty string yields a recorded proxy error, and no error
is appended when no redirect indicator's pattern matches the empty string. -/
theorem c9_amended_no_location (st : EnvState) (resp : Response)
    (hst : resp.status = 302 ∨ resp.status = 301)
    (hloc : resp.headers.find? (fun kv => jsToLower kv.1 == "location") = none) :
    ∃ st', onResponse resp st = .ok st' ∧
      st'.redirectUrls = st.redirectUrls ∧
      ((∃ m e, (getProxyIndicators st "redirect").find? (fun item => jsMatch "" item.url) = some m ∧
          createProxyError m = .ok e ∧ st'.proxyErrors = st.proxyErrors ++ [e]) ∨
       ((getProxyIndicators st "redirect").find? (fun item => jsMatch "" item.url) = none ∧
          st'.proxyErrors = st.proxyErrors)) := by
  have hext : extractRedirectUrl resp = "" := by
    unfold extractRedirectUrl
    rw [hloc]
  unfold onResponse
  rw [if_pos hst, hext]
  simp only [ne_eq, eq_self_iff_true, not_true, false_and, if_false]
  cases hfind : (getProxyIndicators st "redirect").find? (fun item => jsMatch "" item.url) with
  | none =>
    exact ⟨st, rfl, rfl, Or.inr ⟨rfl, rfl⟩⟩
  | some m =>
    have hm : m ∈ getProxyIndicators st "redirect" := List.mem_of_find?_eq_some hfind
    have hmtype : m.type = "redirect" := by
      have h' : m ∈ st.proxyIndicators ∧ m.type = "redirect" := by
        simpa [getProxyIndicators, List.mem_filter] using hm
      exact h'.2
    have hcreate : createProxyError m = .ok
        { message := "Proxy matched redirect", proxyIndicator := m.type,
          proxyLevel := jsStringOfOpt (jsOrStr m.level (some "medium")) } := by
      unfold createProxyError
      rw [if_pos hmtype]
    refine ⟨addProxyError st
        { message := "Proxy matched redirect", proxyIndicator := m.type,
          proxyLevel := jsStringOfOpt (jsOrStr m.level (some "medium")) },
      ?_, rfl, Or.inl ⟨m, _, rfl, hcreate, rfl⟩⟩
    show Except.map (addProxyError st) (createProxyError m) = _
    rw [hcreate]
    rfl

/-- C9 witness: the amended statement exercised at the concrete no-location
302 response against the empty-pattern redirect indicator. -/
theorem c9_witness :
    ∃ st', onResponse c9Response c9State = .ok st' ∧
      st'.redirectUrls = c9State.redirectUrls ∧
      ((∃ m e, (getProxyIndicators c9State "redirect").find?
            (fun item => jsMatch "" item.url) = some m ∧
          createProxyError m = .ok e ∧ st'.proxyErrors = c9State.proxyErrors ++ [e]) ∨
       ((getProxyIndicators c9State "redirect").find?
            (fun item => jsMatch "" item.url) = none ∧
          st'.proxyErrors = c9State.proxyErrors)) :=
  c9_amended_no_location c9State c9Response (Or.inl rfl) rfl

/-- C10: a rejecting `validate()` pops exactly the most recently appended
error, leaving the earlier entries in order observable via `getProxyErrors()`,
and neither the candidate list nor the active candidate is changed. -/
theorem c10_validate_pop_frame (st : EnvState) (e : ProxyError)
    (h : (getProxyErrors st).getLast? = some e) :
    (validateProxy st).1 = .error e ∧
    getProxyErrors (validateProxy st).2 = (getProxyErrors st).dropLast ∧
    getProxyErrors st = (getProxyErrors st).dropLast ++ [e] ∧
    (validateProxy st).2.proxy = st.proxy ∧
    (validateProxy st).2.proxyCurrent = st.proxyCurrent := by
  have h' : st.proxyErrors.getLast? = some e := h
  refine ⟨?_, ?_, ?_, ?_, ?_⟩
  · simp [validateProxy, h']
  · simp [validateProxy, getProxyErrors, h']
  · exact (List.dropLast_append_getLast? e (Option.mem_def.mpr h')).symm
  · simp [validateProxy, h']
  · simp [validateProxy, h']

/-- C10 witness: the pop-frame statement exercised at the two-error log. -/
theorem c10_witness :
    (validateProxy twoErrorsState).1 = .error sampleError2 ∧
    getProxyErrors (validateProxy twoErrorsState).2 =
      (getProxyErrors twoErrorsState).dropLast ∧
    getProxyErrors twoErrorsState =
      (getProxyErrors twoErrorsState).dropLast ++ [sampleError2] ∧
    (validateProxy twoErrorsState).2.proxy = twoErrorsState.proxy ∧
    (validateProxy twoErrorsState).2.proxyCurrent = twoErrorsState.proxyCurrent :=
  c10_validate_pop_frame twoErrorsState sampleError2 rfl

end ChromeEnv
